import Mathlib

/-!
Verification of the Robot Abstraction & State-Cache Layer of the
purei9_unofficial cloud (v1) adapter, shallowly embedded from
`src/purei9_unofficial/cloud.py`.  The cache (`CachedData` from `util.py`)
and the power-mode vocabulary (`PowerMode` from `common.py`) are not part
of the provided sources; they are modelled from the specification and
marked as such in their doc comments.  All network effects are made
explicit: fetches are passed in as functions, and each operation reports
how many backend fetches it performed and which command bodies it sent.
-/

namespace PureI9

/-- Modelled from the spec: `PowerMode` enum of `common.py` (absent from the
sources); a tri-level scale whose integer codes are 1 = LOW, 2 = MEDIUM,
3 = HIGH (spec §8: a snapshot field `PowerMode: 1` maps to LOW). -/
inductive PowerMode where
  | LOW
  | MEDIUM
  | HIGH
deriving DecidableEq, Repr

/-- Modelled from the spec: the integer code of each `PowerMode` member. -/
def PowerMode.value : PowerMode → Int
  | .LOW => 1
  | .MEDIUM => 2
  | .HIGH => 3

/-- Modelled from the spec: the Python enum call `PowerMode(v)`, translating
an integer code to the enum member; `none` models the `ValueError` raised
on a code that is not a member. -/
def PowerMode.ofInt (v : Int) : Option PowerMode :=
  if v = 1 then some .LOW
  else if v = 2 then some .MEDIUM
  else if v = 3 then some .HIGH
  else none

/-- The slice of the `AppUpdate` JSON snapshot that the power-mode logic
reads.  `powerMode = none` covers both an absent `PowerMode` key and a
present-but-null one, exactly like the source's
`i["PowerMode"] if "PowerMode" in i else None`; likewise for `ecoMode`. -/
structure Info where
  powerMode : Option Int
  ecoMode : Option Bool
deriving DecidableEq, Repr

/-- Modelled from the spec: the per-robot state cache (`CachedData` of
`util.py`, absent from the sources): the last fetched snapshot, if any,
and the dirty flag set by mutating commands (spec §4.1). -/
structure CachedData where
  cached : Option Info
  dirty : Bool
deriving DecidableEq, Repr

/-- Modelled from the spec: a fresh robot handle has an empty, clean cache. -/
def CachedData.initial : CachedData := ⟨none, false⟩

/-- Modelled from the spec (§4.1): `get_snapshot` returns the cached
snapshot when present and not dirty; otherwise it performs one backend
fetch, stores the result, clears the dirty flag and returns it.  The
returned `Nat` counts the backend fetches performed (0 or 1). -/
def getinfo (fetch : Unit → Info) (st : CachedData) : Info × CachedData × Nat :=
  match st.cached, st.dirty with
  | some v, false => (v, st, 0)
  | _, _ =>
    let v := fetch ()
    (v, ⟨some v, false⟩, 1)

/-- Modelled from the spec (§4.1): `_mark_changed` / `invalidate` sets the
dirty flag unconditionally, with no backend call. -/
def mark_changed (st : CachedData) : CachedData := { st with dirty := true }

/-- The body of `CloudRobot.getpowermode` after the snapshot has been
obtained: prefer the `PowerMode` field, else map `EcoMode`
`true ↦ MEDIUM` / `false ↦ HIGH`, else default `MEDIUM`. -/
def resolvePowermode (i : Info) : Option PowerMode :=
  match i.powerMode with
  | some v => PowerMode.ofInt v
  | none =>
    match i.ecoMode with
    | some true => some .MEDIUM
    | some false => some .HIGH
    | none => some .MEDIUM

/-- `CloudRobot.getpowermode`: fetch the (possibly cached) snapshot and
resolve the power mode from it. -/
def getpowermode (fetch : Unit → Info) (st : CachedData) :
    Option PowerMode × CachedData × Nat :=
  let r := getinfo fetch st
  (resolvePowermode r.1, r.2.1, r.2.2)

/-- A websocket command body, the `Body` field of the
`{Type: 1, Command: "AppUpdate", Body: ...}` frame. -/
inductive Body where
  | cleaningCommand (c : Int)
  | powerModeValue (v : Int)
  | ecoModeFlag (b : Bool)
deriving DecidableEq, Repr

/-- The errors a command path can surface: the two `raise Exception(...)`
branches of `setpowermode`, and a websocket transport failure. -/
inductive CommandError where
  | unsupportedMode (m : PowerMode)
  | unsupportedSet
  | transport
deriving DecidableEq, Repr

/-- `CloudRobot._sendCommand`: connect, send the frame, read one response
(`sendOk` says whether this transport interaction succeeds or raises), and
in the `finally` block mark the cache changed and close the socket — so the
cache is marked dirty on success and on failure alike.  Returns the
result, the new cache state, and the list of bodies handed to the
transport. -/
def sendCommand (sendOk : Bool) (body : Body) (st : CachedData) :
    Except CommandError Bool × CachedData × List Body :=
  if sendOk then (.ok true, mark_changed st, [body])
  else (.error .transport, mark_changed st, [body])

/-- `CloudRobot._sendCleanCommand`. -/
def sendCleanCommand (sendOk : Bool) (c : Int) (st : CachedData) :
    Except CommandError Bool × CachedData × List Body :=
  sendCommand sendOk (.cleaningCommand c) st

/-- `CloudRobot.startclean`. -/
def startclean (sendOk : Bool) (st : CachedData) :
    Except CommandError Bool × CachedData × List Body :=
  sendCleanCommand sendOk 1 st

/-- `CloudRobot.gohome`. -/
def gohome (sendOk : Bool) (st : CachedData) :
    Except CommandError Bool × CachedData × List Body :=
  sendCleanCommand sendOk 3 st

/-- `CloudRobot.pauseclean`. -/
def pauseclean (sendOk : Bool) (st : CachedData) :
    Except CommandError Bool × CachedData × List Body :=
  sendCleanCommand sendOk 4 st

/-- `CloudRobot.stopclean`. -/
def stopclean (sendOk : Bool) (st : CachedData) :
    Except CommandError Bool × CachedData × List Body :=
  sendCleanCommand sendOk 5 st

/-- `CloudRobot.setpowermode`: fetch the (possibly cached) snapshot; if it
carries a `PowerMode` field send the discrete value, else if it carries an
`EcoMode` field send the boolean for MEDIUM/HIGH and raise for any other
mode, else raise.  Returns the result, the final cache state, the bodies
handed to the transport, and the number of backend fetches performed. -/
def setpowermode (sendOk : Bool) (fetch : Unit → Info) (mode : PowerMode)
    (st : CachedData) :
    Except CommandError Unit × CachedData × List Body × Nat :=
  let r := getinfo fetch st
  let i := r.1
  let st1 := r.2.1
  let n := r.2.2
  match i.powerMode with
  | some _ =>
    let s := sendCommand sendOk (.powerModeValue mode.value) st1
    (s.1.map (fun _ => ()), s.2.1, s.2.2, n)
  | none =>
    match i.ecoMode with
    | some _ =>
      if mode = .MEDIUM then
        let s := sendCommand sendOk (.ecoModeFlag true) st1
        (s.1.map (fun _ => ()), s.2.1, s.2.2, n)
      else if mode = .HIGH then
        let s := sendCommand sendOk (.ecoModeFlag false) st1
        (s.1.map (fun _ => ()), s.2.1, s.2.2, n)
      else (.error (.unsupportedMode mode), st1, [], n)
    | none => (.error .unsupportedSet, st1, [], n)

/-- The `CleaningSession` sub-object of a history item, as delivered by the
backend.  Scalar payload fields the code forwards untouched are kept as
strings. -/
structure SessionJs where
  mapImageUrl : Option String
  persistentMapId : String
  completion : String
  robotUserError : String
  robotInternalError : String
deriving DecidableEq, Repr

/-- One entry of a `CleanedAreas` page's `Items` list; `cleaningSession`
is `none` for the placeholder entries whose `CleaningSession` is null. -/
structure HistItem where
  timeStamp : String
  cleanedArea : String
  cleaningSession : Option SessionJs
deriving DecidableEq, Repr

/-- The dictionary `getCleaningSessions` builds for one history item. -/
structure Session where
  timestamp : String
  cleaned_area : String
  image : Option String
  map : String
  status : String
  usererror : String
  internalerror : String
deriving DecidableEq, Repr

/-- The backend's answer to one `CleanedAreas` request: HTTP 204, or a JSON
page with `Items` and a `Next` cursor (cursors modelled as naturals). -/
inductive Response where
  | noContent
  | page (items : List HistItem) (next : Option Nat)
deriving DecidableEq, Repr

/-- The per-item dictionary construction inside `getCleaningSessions`,
for an item whose `CleaningSession` is non-null: the image URL is built
only when `MapImageUrl` is truthy (neither null nor empty). -/
def mkSession (x : HistItem) (cs : SessionJs) : Session :=
  { timestamp := x.timeStamp
    cleaned_area := x.cleanedArea
    image :=
      match cs.mapImageUrl with
      | some u =>
        if u = "" then none
        else some ("https://mobile.rvccloud.electrolux.com/image/map/png/" ++ u)
      | none => none
    map := cs.persistentMapId
    status := cs.completion
    usererror := cs.robotUserError
    internalerror := cs.robotInternalError }

/-- The `filter`+`map` over one page's `Items`: entries whose
`CleaningSession` is null are dropped, the rest become `Session`s. -/
def pageSessions (items : List HistItem) : List Session :=
  items.filterMap (fun x => x.cleaningSession.map (mkSession x))

/-- `CloudRobot.getCleaningSessions`, with the backend as a function from
the request's `Next` cursor to its response.  The Python recursion carries
no termination guard, so it is embedded with explicit fuel: `none` means
the recursion did not finish within `fuel` calls; the source's behaviour
is the limit over all fuels. -/
def getCleaningSessions (backend : Option Nat → Response) :
    Nat → Option Nat → Option (List Session)
  | 0, _ => none
  | fuel + 1, nextptr =>
    match backend nextptr with
    | .noContent => some []
    | .page items next =>
      let sessions := pageSessions items
      match next with
      | none => some sessions
      | some nx =>
        match getCleaningSessions backend fuel (some nx) with
        | none => none
        | some rest => some (sessions ++ rest)

/-- A backend presenting the finite page chain P1..Pn from a cursor:
`Chain backend c pages` says that requesting with cursor `c` yields the
first page of `pages`, each page's `Next` cursor leads to the following
page, and the last page's `Next` is null. -/
inductive Chain (backend : Option Nat → Response) :
    Option Nat → List (List HistItem) → Prop where
  | last (c : Option Nat) (items : List HistItem)
      (h : backend c = .page items none) : Chain backend c [items]
  | cons (c : Option Nat) (items : List HistItem) (nx : Nat)
      (rest : List (List HistItem))
      (h : backend c = .page items (some nx))
      (tail : Chain backend (some nx) rest) : Chain backend c (items :: rest)

/-- One zone object of the interactive-maps listing payload. -/
structure ZoneJs where
  zid : String
  zname : String
  zoneType : String
  roomCategory : String
deriving DecidableEq, Repr

/-- One map object of the interactive-maps listing payload: identity,
name, and its zones inline (no image). -/
structure MapJs where
  mid : String
  interactiveId : String
  mname : String
  mzones : List ZoneJs
deriving DecidableEq, Repr

/-- `CloudZone.__init__`: copies id, name, zone type and room category
from the listing payload. -/
structure CloudZone where
  id : String
  name : String
  type : String
  roomcategory : String
deriving DecidableEq, Repr

/-- A backend-native JSON payload forwarded verbatim, modelled as the
list of its key/value pairs (the map-image payload carries a `PngImage`
key holding the base64-encoded PNG). -/
abbrev Payload := List (String × String)

/-- `CloudMap`: identity fields and eagerly-built zones from the listing
payload; `info` and `image` start out unset (the `self._get()` call in
`__init__` is commented out in the source). -/
structure CloudMap where
  robotId : String
  id : String
  interactiveid : String
  name : String
  zones : List CloudZone
  info : Option Payload
  image : Option Payload
deriving Repr

/-- `CloudZone.__init__` as a function of the listing payload. -/
def CloudZone.init (js : ZoneJs) : CloudZone :=
  ⟨js.zid, js.zname, js.zoneType, js.roomCategory⟩

/-- `CloudMap.__init__` as a function of the owning robot's id and one
map object of the listing payload: zones are populated here, no image is
fetched. -/
def CloudMap.init (robotId : String) (js : MapJs) : CloudMap :=
  { robotId := robotId
    id := js.mid
    interactiveid := js.interactiveId
    name := js.mname
    zones := js.mzones.map CloudZone.init
    info := none
    image := none }

/-- The URL `CloudMap.getImage` requests. -/
def CloudMap.imageUrl (apiurl : String) (m : CloudMap) : String :=
  apiurl ++ "/robots/" ++ m.robotId ++ "/interactivemaps/" ++ m.id

/-- `CloudMap.getImage`: one HTTP GET of its own (`imageBackend` maps the
request URL to the JSON payload), whose body is returned as-is — the
base64-decode and `del js["PngImage"]` lines are commented out in the
source.  The `Nat` counts the fetches this call performs. -/
def CloudMap.getImage (apiurl : String) (imageBackend : String → Payload)
    (m : CloudMap) : Payload × Nat :=
  (imageBackend (m.imageUrl apiurl), 1)

/-- `CloudRobot.getMaps`: one HTTP GET of the listing (`r.json()`, a list
of map objects), each element turned into a `CloudMap`.  The two counters
are the listing fetches and the image fetches this call performs. -/
def getMaps (robotId : String) (listing : Unit → List MapJs) :
    List CloudMap × Nat × Nat :=
  (((listing ()).map (CloudMap.init robotId)), 1, 0)

/-- UTF-16LE code units of one Unicode code point, as bytes (low byte
first); code points beyond the BMP become a surrogate pair. -/
def utf16leChar (c : Nat) : List Nat :=
  if c < 0x10000 then [c % 256, c / 256 % 256]
  else
    let c' := c - 0x10000
    let hi := 0xD800 + c' / 0x400
    let lo := 0xDC00 + c' % 0x400
    [hi % 256, hi / 256 % 256, lo % 256, lo / 256 % 256]

/-- UTF-16LE byte encoding of a string (no byte-order mark). -/
def utf16le (s : String) : List Nat :=
  (s.data.map (fun c => utf16leChar c.toNat)).flatten

/-- Python's `str.encode("utf-16")` on a little-endian platform: the
`FF FE` byte-order mark followed by the UTF-16LE bytes. -/
def encodeUtf16 (s : String) : List Nat :=
  [0xFF, 0xFE] ++ utf16le s

/-- Truncation to a 32-bit word. -/
def w32 (n : Nat) : Nat := n % 4294967296

/-- Right rotation of a 32-bit word by `n` places (for `x < 2^32`). -/
def rotr32 (x n : Nat) : Nat := x % 2 ^ n * 2 ^ (32 - n) + x / 2 ^ n

/-- Bitwise complement of a 32-bit word. -/
def bnot32 (x : Nat) : Nat := Nat.xor x 4294967295

/-- SHA-256 `Ch`. -/
def shaCh (x y z : Nat) : Nat := Nat.xor (Nat.land x y) (Nat.land (bnot32 x) z)

/-- SHA-256 `Maj`. -/
def shaMaj (x y z : Nat) : Nat :=
  Nat.xor (Nat.xor (Nat.land x y) (Nat.land x z)) (Nat.land y z)

/-- SHA-256 `Σ0`. -/
def bsig0 (x : Nat) : Nat := Nat.xor (Nat.xor (rotr32 x 2) (rotr32 x 13)) (rotr32 x 22)

/-- SHA-256 `Σ1`. -/
def bsig1 (x : Nat) : Nat := Nat.xor (Nat.xor (rotr32 x 6) (rotr32 x 11)) (rotr32 x 25)

/-- SHA-256 `σ0`. -/
def ssig0 (x : Nat) : Nat := Nat.xor (Nat.xor (rotr32 x 7) (rotr32 x 18)) (x / 2 ^ 3)

/-- SHA-256 `σ1`. -/
def ssig1 (x : Nat) : Nat := Nat.xor (Nat.xor (rotr32 x 17) (rotr32 x 19)) (x / 2 ^ 10)

/-- The 64 SHA-256 round constants, written in decimal. -/
def shaK : List Nat :=
  [1116352408, 1899447441, 3049323471, 3921009573, 961987163, 1508970993,
   2453635748, 2870763221, 3624381080, 310598401, 607225278, 1426881987,
   1925078388, 2162078206, 2614888103, 3248222580, 3835390401, 4022224774,
   264347078, 604807628, 770255983, 1249150122, 1555081692, 1996064986,
   2554220882, 2821834349, 2952996808, 3210313671, 3336571891, 3584528711,
   113926993, 338241895, 666307205, 773529912, 1294757372, 1396182291,
   1695183700, 1986661051, 2177026350, 2456956037, 2730485921, 2820302411,
   3259730800, 3345764771, 3516065817, 3600352804, 4094571909, 275423344,
   430227734, 506948616, 659060556, 883997877, 958139571, 1322822218,
   1537002063, 1747873779, 1955562222, 2024104815, 2227730452, 2361852424,
   2428436474, 2756734187, 3204031479, 3329325298]

/-- The eight SHA-256 working variables / hash words. -/
structure Hash8 where
  a : Nat
  b : Nat
  c : Nat
  d : Nat
  e : Nat
  f : Nat
  g : Nat
  h : Nat
deriving DecidableEq, Repr

/-- The SHA-256 initial hash value, written in decimal. -/
def shaH0 : Hash8 :=
  ⟨1779033703, 3144134277, 1013904242, 2773480762,
   1359893119, 2600822924, 528734635, 1541459225⟩

/-- Big-endian 8-byte encoding of a (64-bit) natural. -/
def be64 (n : Nat) : List Nat :=
  [n / 2 ^ 56 % 256, n / 2 ^ 48 % 256, n / 2 ^ 40 % 256, n / 2 ^ 32 % 256,
   n / 2 ^ 24 % 256, n / 2 ^ 16 % 256, n / 2 ^ 8 % 256, n % 256]

/-- Big-endian 4-byte encoding of a 32-bit word. -/
def be32 (n : Nat) : List Nat :=
  [n / 2 ^ 24 % 256, n / 2 ^ 16 % 256, n / 2 ^ 8 % 256, n % 256]

/-- SHA-256 padding: append `0x80`, zero bytes up to 56 mod 64, then the
bit length as a big-endian 64-bit integer. -/
def sha256pad (msg : List Nat) : List Nat :=
  let z := (119 - msg.length % 64) % 64
  msg ++ [0x80] ++ List.replicate z 0 ++ be64 (8 * msg.length)

/-- Group a byte list into 32-bit big-endian words. -/
def bytesToWords : List Nat → List Nat
  | a :: b :: c :: d :: rest =>
    (((a * 256 + b) * 256 + c) * 256 + d) :: bytesToWords rest
  | _ => []

/-- Split a word list into 16-word blocks. -/
def wordsToBlocks (ws : List Nat) : List (List Nat) :=
  match ws with
  | [] => []
  | w :: rest => (w :: rest.take 15) :: wordsToBlocks (rest.drop 15)
termination_by ws.length
decreasing_by simp; omega

/-- Extend a 16-word block by `k` message-schedule words. -/
def schedExtend (w : List Nat) : Nat → List Nat
  | 0 => w
  | k + 1 =>
    let prev := schedExtend w k
    let i := 16 + k
    prev ++ [w32 (ssig1 (prev.getD (i - 2) 0) + prev.getD (i - 7) 0 +
                  ssig0 (prev.getD (i - 15) 0) + prev.getD (i - 16) 0)]

/-- One SHA-256 compression round, consuming a round constant paired with
a schedule word. -/
def shaRound (s : Hash8) (kw : Nat × Nat) : Hash8 :=
  let t1 := w32 (s.h + bsig1 s.e + shaCh s.e s.f s.g + kw.1 + kw.2)
  let t2 := w32 (bsig0 s.a + shaMaj s.a s.b s.c)
  ⟨w32 (t1 + t2), s.a, s.b, s.c, w32 (s.d + t1), s.e, s.f, s.g⟩

/-- SHA-256 compression of one 16-word block into the running hash. -/
def shaCompress (h : Hash8) (block : List Nat) : Hash8 :=
  let w := schedExtend block 48
  let s := (shaK.zip w).foldl shaRound h
  ⟨w32 (h.a + s.a), w32 (h.b + s.b), w32 (h.c + s.c), w32 (h.d + s.d),
   w32 (h.e + s.e), w32 (h.f + s.f), w32 (h.g + s.g), w32 (h.h + s.h)⟩

/-- SHA-256 of a byte list, as the 32-byte digest (`hashlib.sha256(
buf).digest()`). -/
def sha256 (msg : List Nat) : List Nat :=
  let blocks := wordsToBlocks (bytesToWords (sha256pad msg))
  let hh := blocks.foldl shaCompress shaH0
  be32 hh.a ++ be32 hh.b ++ be32 hh.c ++ be32 hh.d ++
  be32 hh.e ++ be32 hh.f ++ be32 hh.g ++ be32 hh.h

/-- The base64 alphabet. -/
def b64alphabet : List Char :=
  "ABCDEFGHIJKLMNOPQRSTUVWXYZabcdefghijklmnopqrstuvwxyz0123456789+/".data

/-- The base64 digit for a 6-bit value. -/
def b64char (n : Nat) : Char := b64alphabet.getD n 'A'

/-- Standard base64 encoding of a byte list with `=` padding
(`base64.b64encode`). -/
def b64encode : List Nat → List Char
  | [] => []
  | [a] => [b64char (a / 4), b64char (a % 4 * 16), '=', '=']
  | [a, b] => [b64char (a / 4), b64char (a % 4 * 16 + b / 16),
               b64char (b % 16 * 4), '=']
  | a :: b :: c :: rest =>
    [b64char (a / 4), b64char (a % 4 * 16 + b / 16),
     b64char (b % 16 * 4 + c / 64), b64char (c % 64)] ++ b64encode rest

/-- The fixed salt appended to the account password in
`CloudClient.chksum`. -/
def fixedSalt : String := "947X6kdLJyrhlCDzUyzFwT4s4NZL3O8eLs0PE4Hi7hU="

/-- `CloudClient.chksum`: append the salt, `encode("utf-16")`, strip the
first two bytes, SHA-256, base64. -/
def chksum (pw : String) : String :=
  let buf := (encodeUtf16 (pw ++ fixedSalt)).drop 2
  String.mk (b64encode (sha256 buf))

/-- `requests.auth.HTTPBasicAuth`: the username/password pair presented
in the HTTP basic-auth header. -/
structure HTTPBasicAuth where
  username : String
  password : String
deriving DecidableEq, Repr

/-- The state `CloudClient.__init__` builds: API URL, the credentials
dictionary, and the HTTP basic-auth object. -/
structure CloudClient where
  apiurl : String
  credentialsEmail : String
  credentialsAccountPassword : String
  httpauth : HTTPBasicAuth
deriving DecidableEq, Repr

/-- `CloudClient.__init__`: the password is replaced by its checksum
before it is stored anywhere. -/
def CloudClient.init (email password : String) : CloudClient :=
  let password := chksum password
  { apiurl := "https://mobile.rvccloud.electrolux.com/api/v1"
    credentialsEmail := email
    credentialsAccountPassword := password
    httpauth := ⟨email, password⟩ }

/-! Helper lemmas about the cache. -/

/-- A cache hit: with a stored snapshot and a clean flag, `getinfo`
returns the stored value, leaves the state alone and fetches nothing. -/
lemma getinfo_hit (fetch : Unit → Info) (st : CachedData) (v : Info)
    (h1 : st.cached = some v) (h2 : st.dirty = false) :
    getinfo fetch st = (v, st, 0) := by
  rcases st with ⟨c, d⟩
  simp only at h1 h2
  subst h1; subst h2
  rfl

/-- A dirty cache always causes exactly one fetch. -/
lemma getinfo_dirty (fetch : Unit → Info) (st : CachedData)
    (h : st.dirty = true) : (getinfo fetch st).2.2 = 1 := by
  rcases st with ⟨c, d⟩
  simp only at h
  subst h
  cases c <;> rfl

/-- After any `getinfo` call the state holds the returned snapshot and is
clean. -/
lemma getinfo_post (fetch : Unit → Info) (st : CachedData) :
    (getinfo fetch st).2.1.cached = some (getinfo fetch st).1 ∧
    (getinfo fetch st).2.1.dirty = false := by
  rcases st with ⟨c, d⟩
  cases c <;> cases d <;> simp [getinfo]

/-- C6: reading the snapshot twice with no intervening command performs at
most one backend fetch in total — the second call fetches nothing, returns
the same snapshot, and leaves the state unchanged. -/
theorem getinfo_idempotent (fetch : Unit → Info) (st : CachedData) :
    (getinfo fetch (getinfo fetch st).2.1).1 = (getinfo fetch st).1 ∧
    (getinfo fetch (getinfo fetch st).2.1).2.1 = (getinfo fetch st).2.1 ∧
    (getinfo fetch (getinfo fetch st).2.1).2.2 = 0 ∧
    (getinfo fetch st).2.2 + (getinfo fetch (getinfo fetch st).2.1).2.2 ≤ 1 := by
  rcases st with ⟨c, d⟩
  cases c <;> cases d <;> simp [getinfo]

/-- C1: `getpowermode` prefers the snapshot's `PowerMode` field,
translating its integer directly (also when an `EcoMode` field is
present); on an `EcoMode`-only snapshot it maps `true ↦ MEDIUM`,
`false ↦ HIGH`; with neither field it defaults to MEDIUM. -/
theorem getpowermode_spec (fetch : Unit → Info) (st : CachedData) :
    (∀ v : Int, (getinfo fetch st).1.powerMode = some v →
      (getpowermode fetch st).1 = PowerMode.ofInt v) ∧
    ((getinfo fetch st).1.powerMode = none →
      ∀ b : Bool, (getinfo fetch st).1.ecoMode = some b →
      (getpowermode fetch st).1 =
        some (if b then PowerMode.MEDIUM else PowerMode.HIGH)) ∧
    ((getinfo fetch st).1.powerMode = none →
      (getinfo fetch st).1.ecoMode = none →
      (getpowermode fetch st).1 = some PowerMode.MEDIUM) := by
  refine ⟨?_, ?_, ?_⟩
  · intro v hv
    simp [getpowermode, resolvePowermode, hv]
  · intro hpm b hb
    cases b <;> simp [getpowermode, resolvePowermode, hpm, hb]
  · intro hpm heco
    simp [getpowermode, resolvePowermode, hpm, heco]

/-- Witness for C1: a robot reporting `{PowerMode: 1, EcoMode: true}`
resolves to LOW — the `PowerMode` field wins over `EcoMode`. -/
theorem getpowermode_spec_witness :
    (getpowermode (fun _ => ⟨some 1, some true⟩) CachedData.initial).1 =
      some PowerMode.LOW :=
  ((getpowermode_spec (fun _ => ⟨some 1, some true⟩) CachedData.initial).1
    1 rfl).trans (by decide)

/-- C2: every mutating command issuance marks the cache dirty whether the
transport succeeds or fails, so the next snapshot read performs exactly one
fresh backend fetch; the four cleaning commands are `sendCommand` with
their fixed bodies, and whenever `setpowermode` actually hands a body to
the transport its final state is dirty as well. -/
theorem command_invalidates_cache (sendOk : Bool) (body : Body)
    (st : CachedData) (fetch : Unit → Info) :
    (sendCommand sendOk body st).2.1.dirty = true ∧
    (getinfo fetch (sendCommand sendOk body st).2.1).2.2 = 1 ∧
    startclean sendOk st = sendCommand sendOk (.cleaningCommand 1) st ∧
    gohome sendOk st = sendCommand sendOk (.cleaningCommand 3) st ∧
    pauseclean sendOk st = sendCommand sendOk (.cleaningCommand 4) st ∧
    stopclean sendOk st = sendCommand sendOk (.cleaningCommand 5) st ∧
    (∀ (mode : PowerMode) (fetch2 : Unit → Info),
      (setpowermode sendOk fetch2 mode st).2.2.1 ≠ [] →
      (setpowermode sendOk fetch2 mode st).2.1.dirty = true ∧
      (getinfo fetch (setpowermode sendOk fetch2 mode st).2.1).2.2 = 1) := by
  have hdirty : ∀ s : CachedData, (mark_changed s).dirty = true := by
    intro s; rfl
  have hsend : ∀ (b : Body) (s : CachedData),
      (sendCommand sendOk b s).2.1 = mark_changed s := by
    intro b s; cases sendOk <;> rfl
  refine ⟨?_, ?_, rfl, rfl, rfl, rfl, ?_⟩
  · rw [hsend]; exact hdirty st
  · exact getinfo_dirty fetch _ (by rw [hsend]; exact hdirty st)
  · intro mode fetch2 hsent
    have hstate : (setpowermode sendOk fetch2 mode st).2.1 =
        mark_changed (getinfo fetch2 st).2.1 ∨
        (setpowermode sendOk fetch2 mode st).2.2.1 = [] := by
      unfold setpowermode
      rcases hpm : (getinfo fetch2 st).1.powerMode with _ | v
      · rcases heco : (getinfo fetch2 st).1.ecoMode with _ | b
        · simp [hpm, heco]
        · by_cases hm1 : mode = .MEDIUM
          · simp [hpm, heco, hm1, hsend]
          · by_cases hm2 : mode = .HIGH
            · simp [hpm, heco, hm1, hm2, hsend]
            · simp [hpm, heco, hm1, hm2]
      · simp [hpm, hsend]
    rcases hstate with hstate | hstate
    · rw [hstate]
      exact ⟨hdirty _, getinfo_dirty fetch _ (hdirty _)⟩
    · exact absurd hstate hsent

/-- Witness for C2: a transport failure during `setpowermode` on a
`PowerMode`-field robot still leaves the cache dirty. -/
theorem command_invalidates_cache_witness :
    (setpowermode false (fun _ => ⟨some 2, none⟩) PowerMode.HIGH
      CachedData.initial).2.1.dirty = true :=
  ((command_invalidates_cache false (.cleaningCommand 1) CachedData.initial
      (fun _ => ⟨some 2, none⟩)).2.2.2.2.2.2 PowerMode.HIGH
      (fun _ => ⟨some 2, none⟩) (by decide)).1

/-- C4: on an `EcoMode`-only snapshot, requesting a power mode other than
MEDIUM or HIGH raises the unsupported-mode error and hands no body to the
transport. -/
theorem setpowermode_unsupported (sendOk : Bool) (fetch : Unit → Info)
    (mode : PowerMode) (st : CachedData) (b : Bool)
    (hpm : (getinfo fetch st).1.powerMode = none)
    (heco : (getinfo fetch st).1.ecoMode = some b)
    (hm1 : mode ≠ .MEDIUM) (hm2 : mode ≠ .HIGH) :
    (setpowermode sendOk fetch mode st).1 =
      .error (.unsupportedMode mode) ∧
    (setpowermode sendOk fetch mode st).2.2.1 = [] := by
  unfold setpowermode
  simp [hpm, heco, hm1, hm2]

/-- Witness for C4: requesting LOW on a fresh handle whose backend reports
`{EcoMode: true}` errors out without sending anything. -/
theorem setpowermode_unsupported_witness :
    (setpowermode true (fun _ => ⟨none, some true⟩) PowerMode.LOW
        CachedData.initial).1 =
      .error (.unsupportedMode PowerMode.LOW) ∧
    (setpowermode true (fun _ => ⟨none, some true⟩) PowerMode.LOW
        CachedData.initial).2.2.1 = [] :=
  setpowermode_unsupported true (fun _ => ⟨none, some true⟩) PowerMode.LOW
    CachedData.initial true rfl rfl (by decide) (by decide)

/-- C10: when `setpowermode` raises without sending a command (EcoMode-only
snapshot asked for a mode outside MEDIUM/HIGH, or a snapshot with neither
field), the cache is not invalidated: it still holds the snapshot fetched
for the representation check, clean, and a subsequent read fetches
nothing. -/
theorem setpowermode_error_keeps_cache (sendOk : Bool) (fetch : Unit → Info)
    (mode : PowerMode) (st : CachedData)
    (hpm : (getinfo fetch st).1.powerMode = none)
    (herr : (getinfo fetch st).1.ecoMode = none ∨
            (mode ≠ .MEDIUM ∧ mode ≠ .HIGH)) :
    (setpowermode sendOk fetch mode st).2.1.cached =
      some (getinfo fetch st).1 ∧
    (setpowermode sendOk fetch mode st).2.1.dirty = false ∧
    (setpowermode sendOk fetch mode st).2.2.1 = [] ∧
    (getinfo fetch (setpowermode sendOk fetch mode st).2.1).2.2 = 0 := by
  have hstate : (setpowermode sendOk fetch mode st).2.1 =
      (getinfo fetch st).2.1 ∧
      (setpowermode sendOk fetch mode st).2.2.1 = [] := by
    unfold setpowermode
    rcases heco : (getinfo fetch st).1.ecoMode with _ | b
    · simp [hpm, heco]
    · rcases herr with herr | ⟨hm1, hm2⟩
      · rw [herr] at heco; exact absurd heco (by simp)
      · simp [hpm, heco, hm1, hm2]
  obtain ⟨hpost1, hpost2⟩ := getinfo_post fetch st
  refine ⟨by rw [hstate.1]; exact hpost1, by rw [hstate.1]; exact hpost2,
    hstate.2, ?_⟩
  rw [hstate.1,
    getinfo_hit fetch (getinfo fetch st).2.1 (getinfo fetch st).1 hpost1 hpost2]

/-- Witness for C10: after a failed `setpowermode` on a robot reporting
neither field, the fetched snapshot is still cached and a second read
fetches nothing. -/
theorem setpowermode_error_keeps_cache_witness :
    (setpowermode true (fun _ => ⟨none, none⟩) PowerMode.HIGH
        CachedData.initial).2.1.cached = some ⟨none, none⟩ ∧
    (setpowermode true (fun _ => ⟨none, none⟩) PowerMode.HIGH
        CachedData.initial).2.1.dirty = false ∧
    (setpowermode true (fun _ => ⟨none, none⟩) PowerMode.HIGH
        CachedData.initial).2.2.1 = [] ∧
    (getinfo (fun _ => ⟨none, none⟩)
      (setpowermode true (fun _ => ⟨none, none⟩) PowerMode.HIGH
        CachedData.initial).2.1).2.2 = 0 :=
  setpowermode_error_keeps_cache true (fun _ => ⟨none, none⟩) PowerMode.HIGH
    CachedData.initial rfl (Or.inl rfl)

/-- On a backend presenting a finite null-terminated page chain, the
recursion finishes within `pages.length` calls and returns the
concatenation, in page order, of each page's filtered items. -/
lemma getCS_of_chain {backend : Option Nat → Response} {c : Option Nat}
    {pages : List (List HistItem)} (h : Chain backend c pages) :
    ∀ fuel, pages.length ≤ fuel →
    getCleaningSessions backend fuel c =
      some ((pages.map pageSessions).flatten) := by
  induction h with
  | last c items hresp =>
    intro fuel hf
    cases fuel with
    | zero => simp at hf
    | succ n => simp [getCleaningSessions, hresp]
  | cons c items nx rest hresp tail ih =>
    intro fuel hf
    cases fuel with
    | zero => simp at hf
    | succ n =>
      have hn : rest.length ≤ n := by
        simp only [List.length_cons] at hf; omega
      simp [getCleaningSessions, hresp, ih n hn]

/-- C3: for every backend presenting pages P1..Pn linked by non-null
`Next` cursors and ending in a null cursor, `getCleaningSessions` returns
exactly the concatenation, in page order, of each page's items with the
null-`CleaningSession` entries dropped. -/
theorem getCleaningSessions_chain (backend : Option Nat → Response)
    (c : Option Nat) (pages : List (List HistItem))
    (h : Chain backend c pages) (fuel : Nat) (hf : pages.length ≤ fuel) :
    getCleaningSessions backend fuel c =
      some ((pages.map pageSessions).flatten) :=
  getCS_of_chain h fuel hf

/-- A history entry with a full cleaning session. -/
def exItemA : HistItem :=
  ⟨"2021-01-01T10:00:00", "10.5", some ⟨some "img1", "m1", "Done", "0", "0"⟩⟩

/-- A placeholder history entry whose `CleaningSession` is null. -/
def exItemB : HistItem := ⟨"2021-01-02T10:00:00", "7", none⟩

/-- A history entry whose session has a null `MapImageUrl`. -/
def exItemC : HistItem :=
  ⟨"2021-01-03T10:00:00", "8", some ⟨none, "m2", "Error", "1", "2"⟩⟩

/-- A two-page backend: the first page points at cursor 1, the second is
terminal. -/
def exBackend : Option Nat → Response := fun c =>
  match c with
  | none => .page [exItemA, exItemB] (some 1)
  | some 1 => .page [exItemC] none
  | some _ => .noContent

/-- Witness for C3: on the two-page backend the null-session entry is
dropped and the remaining two sessions come back in page order. -/
theorem getCleaningSessions_chain_witness :
    getCleaningSessions exBackend 2 none =
      some [⟨"2021-01-01T10:00:00", "10.5",
              some "https://mobile.rvccloud.electrolux.com/image/map/png/img1",
              "m1", "Done", "0", "0"⟩,
            ⟨"2021-01-03T10:00:00", "8", none, "m2", "Error", "1", "2"⟩] :=
  (getCleaningSessions_chain exBackend none [[exItemA, exItemB], [exItemC]]
    (Chain.cons none [exItemA, exItemB] 1 [[exItemC]] rfl
      (Chain.last (some 1) [exItemC] rfl)) 2 (by decide)).trans (by decide)

/-- A backend whose every answer points back at cursor 0: the cursor
cycles forever. -/
def cyclicBackend : Option Nat → Response := fun _ => .page [] (some 0)

/-- Against the cycling backend the recursion never finishes, whatever the
fuel. -/
lemma getCS_cyclic (fuel : Nat) :
    ∀ c, getCleaningSessions cyclicBackend fuel c = none := by
  induction fuel with
  | zero => intro c; rfl
  | succ n ih => intro c; simp [getCleaningSessions, cyclicBackend, ih]

/-- Counterexample to C5 as stated: on the backend that always returns the
cursor 0 again, `getCleaningSessions` started at the first page never
terminates — no amount of recursion reaches a result. -/
theorem getCleaningSessions_cycle_counterexample :
    ¬ ∃ (fuel : Nat) (r : List Session),
        getCleaningSessions cyclicBackend fuel none = some r := by
  rintro ⟨fuel, r, h⟩
  rw [getCS_cyclic fuel none] at h
  exact Option.noConfusion h

/-- C5 (amended): `getCleaningSessions` terminates on every backend whose
cursor responses form a finite null-terminated page chain; it does not
terminate on a backend whose cursor cycles back to an already-seen value. -/
theorem getCleaningSessions_terminates (backend : Option Nat → Response)
    (c : Option Nat) (pages : List (List HistItem))
    (h : Chain backend c pages) :
    ∃ r, getCleaningSessions backend pages.length c = some r :=
  ⟨(pages.map pageSessions).flatten, getCS_of_chain h pages.length le_rfl⟩

/-- A single terminal page, used to exercise the termination theorem. -/
def exBackendOnePage : Option Nat → Response := fun _ => .page [exItemA] none

/-- Witness for C5 (amended): the one-page backend terminates within one
call. -/
theorem getCleaningSessions_terminates_witness :
    ∃ r, getCleaningSessions exBackendOnePage 1 none = some r :=
  getCleaningSessions_terminates exBackendOnePage none [[exItemA]]
    (Chain.last none [exItemA] rfl)

/-- C7: a no-content (HTTP 204) answer to a history-page request makes
`getCleaningSessions` return the empty list for that page instead of
raising. -/
theorem getCleaningSessions_noContent (backend : Option Nat → Response)
    (c : Option Nat) (fuel : Nat) (h : backend c = .noContent) :
    getCleaningSessions backend (fuel + 1) c = some [] := by
  simp [getCleaningSessions, h]

/-- Witness for C7: a backend answering 204 on the first page yields an
empty history. -/
theorem getCleaningSessions_noContent_witness :
    getCleaningSessions (fun _ => Response.noContent) 1 none = some [] :=
  getCleaningSessions_noContent (fun _ => Response.noContent) none 0 rfl

/-- The SHA-256 digest is always 32 bytes. -/
lemma sha256_length (msg : List Nat) : (sha256 msg).length = 32 := by
  simp [sha256, be32]

/-- Base64 encodes `n` bytes into `4⌈n/3⌉` characters. -/
lemma b64encode_length (l : List Nat) :
    (b64encode l).length = 4 * ((l.length + 2) / 3) := by
  induction l using b64encode.induct with
  | case1 => rfl
  | case2 a => simp [b64encode]
  | case3 a b => simp [b64encode]
  | case4 a b c rest ih => simp [b64encode, ih]; omega

/-- C8: the credential `CloudClient.__init__` stores and uses for HTTP
basic auth is exactly `base64(SHA-256(UTF-16LE(password + fixed-salt)))` —
the BOM-strip `[2:]` of `encode("utf-16")` leaves precisely the UTF-16LE
bytes — and, being 44 base64 characters, it is never the cleartext of any
password of a different length. -/
theorem chksum_pipeline (email pw : String) :
    (CloudClient.init email pw).credentialsAccountPassword =
      String.mk (b64encode (sha256 (utf16le (pw ++ fixedSalt)))) ∧
    (CloudClient.init email pw).httpauth.password =
      (CloudClient.init email pw).credentialsAccountPassword ∧
    (CloudClient.init email pw).httpauth.username = email ∧
    (CloudClient.init email pw).credentialsAccountPassword.length = 44 := by
  refine ⟨rfl, rfl, rfl, ?_⟩
  show (chksum pw).length = 44
  have h : (chksum pw).length =
      (b64encode (sha256 ((encodeUtf16 (pw ++ fixedSalt)).drop 2))).length :=
    rfl
  rw [h, b64encode_length, sha256_length]

/-- C9: `getMaps` performs only the listing fetch — no image fetch — and
builds each `CloudMap` with its zones populated from the listing payload
and no image set; `getImage` performs one fetch of its own and hands the
backend payload to the caller verbatim, every field (in particular a
`PngImage` one) included. -/
theorem map_image_model (robotId : String) (listing : Unit → List MapJs)
    (apiurl : String) (imageBackend : String → Payload) (js : MapJs) :
    (getMaps robotId listing).2.1 = 1 ∧
    (getMaps robotId listing).2.2 = 0 ∧
    (getMaps robotId listing).1 = (listing ()).map (CloudMap.init robotId) ∧
    (CloudMap.init robotId js).zones = js.mzones.map CloudZone.init ∧
    (CloudMap.init robotId js).image = none ∧
    (CloudMap.init robotId js).info = none ∧
    (∀ m : CloudMap,
      (m.getImage apiurl imageBackend).1 = imageBackend (m.imageUrl apiurl) ∧
      (m.getImage apiurl imageBackend).2 = 1) ∧
    (∀ (m : CloudMap) (kv : String × String),
      kv ∈ imageBackend (m.imageUrl apiurl) →
      kv ∈ (m.getImage apiurl imageBackend).1) := by
  refine ⟨rfl, rfl, rfl, rfl, rfl, rfl, fun m => ⟨rfl, rfl⟩, ?_⟩
  intro m kv hkv
  exact hkv

/-- A concrete one-map listing payload. -/
def exMapJs : MapJs := ⟨"map1", "int1", "Kitchen", [⟨"z1", "Z", "area", "k"⟩]⟩

/-- Witness for C9: on a backend whose image payload is
`[("PngImage", "iVBOR...")]` the `PngImage` field reaches the caller
untouched. -/
theorem map_image_model_witness :
    ("PngImage", "iVBOR") ∈
      ((CloudMap.init "r1" exMapJs).getImage "u"
        (fun _ => [("PngImage", "iVBOR")])).1 :=
  (map_image_model "r1" (fun _ => [exMapJs]) "u"
    (fun _ => [("PngImage", "iVBOR")]) exMapJs).2.2.2.2.2.2.2
    (CloudMap.init "r1" exMapJs) ("PngImage", "iVBOR") (by decide)

end PureI9
